import Mathlib

/-!
Verification of the `encrypt-password` wrapper (src/src/encrypt-password.ts).

A JavaScript string is modelled as its list of UTF-16 code units
(`List Nat`); `s.length` in JavaScript is the code-unit count, which is
`List.length` here.  `Buffer.from(s)` converts to UTF-8 bytes, modelled by
`utf8Encode`.  Dynamically typed JavaScript values reaching the wrapper are
modelled by `JSValue`; thrown `TypeError`s become `Except.error` carrying
the exact message string of the source.
-/

/-- Model of a dynamically typed JavaScript value as far as the wrapper
inspects one: `undef` is `undefined`, `str` a string given by its UTF-16
code units, `int` a Number that is an integer (`Number.isInteger` true),
`nonIntNum` a Number that is not an integer (e.g. 1.5 or NaN), and `other`
any further value (boolean, object, ...). -/
inductive JSValue where
  | undef
  | str (s : List Nat)
  | int (n : Int)
  | nonIntNum
  | other
deriving DecidableEq

/-- Model of `typeof v === 'string'`. -/
def JSValue.isString : JSValue → Bool
  | JSValue.str _ => true
  | _ => false

/-- Model of the check `!Number.isInteger(v) || v < 1` that the source
applies to `numberOfRounds` and `outputLength`: it holds (the call is
rejected) unless `v` is an integral Number that is at least 1. -/
def failsPositiveIntegerCheck : JSValue → Bool
  | JSValue.int n => decide (n < 1)
  | _ => true

/-- The integral value of a `JSValue` known to be a nonnegative integer. -/
def jsToNat : JSValue → Nat
  | JSValue.int n => n.toNat
  | _ => 0

/-- Model of the options object of `encryptPassword`.  Each field is
`none` when the property is absent and `some v` when it is present with
value `v`; a present property may itself be `JSValue.undef`. -/
structure Options where
  numberOfRounds : Option JSValue
  outputLength : Option JSValue
  salt : Option JSValue
deriving DecidableEq

/-- Model of a destructuring default `{ field = dflt }`: the default is
substituted when the property is absent or its value is `undefined`. -/
def resolveOpt (v : Option JSValue) (dflt : JSValue) : JSValue :=
  match v with
  | none => dflt
  | some JSValue.undef => dflt
  | some w => w

/-- Model of reading `env.SALT`: an environment variable is either absent
(`undefined`) or a string. -/
def envSaltValue (envSALT : Option (List Nat)) : JSValue :=
  match envSALT with
  | none => JSValue.undef
  | some s => JSValue.str s

/-- UTF-8 encoding of one non-surrogate UTF-16 code unit. -/
def utf8EncodeChar (c : Nat) : List Nat :=
  if c < 0x80 then [c]
  else if c < 0x800 then [0xC0 + c / 64, 0x80 + c % 64]
  else [0xE0 + c / 4096, 0x80 + c / 64 % 64, 0x80 + c % 64]

/-- Whether a UTF-16 code unit is a high (leading) surrogate. -/
def isHighSurrogate (c : Nat) : Bool :=
  decide (0xD800 ≤ c) && decide (c ≤ 0xDBFF)

/-- Whether a UTF-16 code unit is a low (trailing) surrogate. -/
def isLowSurrogate (c : Nat) : Bool :=
  decide (0xDC00 ≤ c) && decide (c ≤ 0xDFFF)

/-- UTF-8 encoding of the replacement character U+FFFD, which
`Buffer.from` substitutes for a lone surrogate. -/
def replacementBytes : List Nat := [0xEF, 0xBF, 0xBD]

/-- UTF-8 encoding of the code point formed by a surrogate pair
(always four bytes). -/
def utf8EncodePair (c1 c2 : Nat) : List Nat :=
  let cp := 0x10000 + (c1 - 0xD800) * 0x400 + (c2 - 0xDC00)
  [0xF0 + cp / 0x40000, 0x80 + cp / 0x1000 % 64, 0x80 + cp / 64 % 64,
    0x80 + cp % 64]

/-- Model of `Buffer.from(s)` on a JavaScript string `s`: UTF-8 encoding
of its UTF-16 code units, with lone surrogates replaced by U+FFFD. -/
def utf8Encode : List Nat → List Nat
  | [] => []
  | [c] =>
    if isHighSurrogate c || isLowSurrogate c then replacementBytes
    else utf8EncodeChar c
  | c1 :: c2 :: rest =>
    if isHighSurrogate c1 && isLowSurrogate c2 then
      utf8EncodePair c1 c2 ++ utf8Encode rest
    else if isHighSurrogate c1 || isLowSurrogate c1 then
      replacementBytes ++ utf8Encode (c2 :: rest)
    else
      utf8EncodeChar c1 ++ utf8Encode (c2 :: rest)

/-- The source's `minSaltLengh` constant (sic). -/
def minSaltLengh : Nat := 8

/-- The `TypeError` message for a non-string password. -/
def passwordMessage : String := "Argument `password` must be a string."

/-- The `TypeError` message for an invalid `numberOfRounds` option. -/
def roundsMessage : String :=
  "If specified, option `numberOfRounds` must be a positive integer."

/-- The `TypeError` message for an invalid `outputLength` option. -/
def outputLengthMessage : String :=
  "If specified, option `outputLength` must be a positive integer."

/-- The `TypeError` message for a non-string salt. -/
def saltTypeMessage : String := "Argument `salt` must be a string."

/-- The `TypeError` message for a too-short salt. -/
def saltLengthMessage : String :=
  "Argument `salt` must be at least 8 characters long."

/-- The `TypeError` message thrown by the module-load validation of the
SALT environment variable. -/
def saltVariableMessage : String :=
  "The SALT environment variable must be at least 8 characters long."

/-- Model of the IIFE `validateSaltVariable(env.SALT)` run at module
load: `undefined` is accepted, a non-string or a string of fewer than
`minSaltLengh` UTF-16 code units makes module load throw. -/
def validateSaltVariable (SALT : JSValue) : Except String Unit :=
  if SALT = JSValue.undef then Except.ok ()
  else
    match SALT with
    | JSValue.str s =>
      if s.length < minSaltLengh then Except.error saltVariableMessage
      else Except.ok ()
    | _ => Except.error saltVariableMessage

/-- Modelled from the spec: the `pbkdf` function of the external
`bcrypt-pbkdf` package (its bcrypt-based Block Cipher Core, Key Schedule
Expander and Derivation Driver are not part of this repository).  Per the
spec it is a pure deterministic function of the password bytes, the salt
bytes, the round count and the requested output length that overwrites the
first `keylen` bytes of the output buffer, producing exactly `keylen`
bytes; the concrete mixing below is a stand-in with those properties, and
only determinism and output length are relied on. -/
def pbkdf (pass : List Nat) (passlen : Nat) (salt : List Nat)
    (saltlen : Nat) (key : List Nat) (keylen : Nat) (rounds : Nat) :
    List Nat :=
  let material := pass.take passlen ++ salt.take saltlen
  (List.range keylen).map (fun i =>
    material.foldl (fun a b => (a * 31 + b) % 256)
      ((rounds * 131 + i * 17 + key.length) % 256))

/-- Model of `encryptPassword`, parametric in the key-derivation
primitive so that independence of the validation path from any
cryptographic work can be stated.  `envSALT` is the value of `env.SALT`
at the moment of the call. -/
def encryptPasswordWith
    (kdf : List Nat → Nat → List Nat → Nat → List Nat → Nat → Nat →
      List Nat)
    (password : JSValue) (options : Options)
    (envSALT : Option (List Nat)) : Except String (List Nat) :=
  let numberOfRounds := resolveOpt options.numberOfRounds (JSValue.int 1)
  let outputLength := resolveOpt options.outputLength (JSValue.int 32)
  let salt := resolveOpt options.salt (envSaltValue envSALT)
  match password with
  | JSValue.str p =>
    if failsPositiveIntegerCheck numberOfRounds then
      Except.error roundsMessage
    else if failsPositiveIntegerCheck outputLength then
      Except.error outputLengthMessage
    else
      match salt with
      | JSValue.str s =>
        if s.length < minSaltLengh then Except.error saltLengthMessage
        else
          let buffer := utf8Encode p
          let bufferLength := buffer.length
          let saltBuffer := utf8Encode s
          let saltBufferLength := saltBuffer.length
          let outputBuffer := List.replicate (jsToNat outputLength) 0
          Except.ok (kdf buffer bufferLength saltBuffer saltBufferLength
            outputBuffer (jsToNat outputLength) (jsToNat numberOfRounds))
      | _ => Except.error saltTypeMessage
  | _ => Except.error passwordMessage

/-- The exported `encryptPassword` function: the wrapper applied to the
external `pbkdf` primitive. -/
def encryptPassword (password : JSValue) (options : Options)
    (envSALT : Option (List Nat)) : Except String (List Nat) :=
  encryptPasswordWith pbkdf password options envSALT

/-- The code units of the ASCII string "password". -/
def okPassword : List Nat := [112, 97, 115, 115, 119, 111, 114, 100]

/-- The code units of the ASCII string "saltsalt" (8 characters,
8 UTF-8 bytes). -/
def okSalt : List Nat := [115, 97, 108, 116, 115, 97, 108, 116]

/-- The code units of the ASCII string "short" (5 characters,
5 UTF-8 bytes). -/
def shortSalt : List Nat := [115, 104, 111, 114, 116]

/-- The code units of the string of four é characters (U+00E9): 4 UTF-16
code units but 8 UTF-8 bytes. -/
def wideSalt : List Nat := [233, 233, 233, 233]

theorem pbkdf_length (pass : List Nat) (passlen : Nat) (salt : List Nat)
    (saltlen : Nat) (key : List Nat) (keylen : Nat) (rounds : Nat) :
    (pbkdf pass passlen salt saltlen key keylen rounds).length = keylen := by
  simp [pbkdf]

theorem utf8EncodeChar_ne_nil (c : Nat) : utf8EncodeChar c ≠ [] := by
  unfold utf8EncodeChar
  split <;> simp_all
  split <;> simp_all

theorem utf8EncodeChar_length_pos (c : Nat) :
    1 ≤ (utf8EncodeChar c).length := by
  have h := utf8EncodeChar_ne_nil c
  cases hc : utf8EncodeChar c with
  | nil => exact absurd hc h
  | cons a t => simp

/-- Every UTF-16 code unit contributes at least one UTF-8 byte, so the
byte length of a JavaScript string is at least its `.length`. -/
theorem utf8Encode_length_ge (s : List Nat) :
    s.length ≤ (utf8Encode s).length := by
  induction s using utf8Encode.induct with
  | case1 => simp [utf8Encode]
  | case2 c h =>
    unfold utf8Encode
    rw [if_pos h]
    simp [replacementBytes]
  | case3 c h =>
    unfold utf8Encode
    rw [if_neg h]
    exact utf8EncodeChar_length_pos c
  | case4 c1 c2 rest h ih =>
    unfold utf8Encode
    rw [if_pos h]
    have hp : (utf8EncodePair c1 c2).length = 4 := by
      simp [utf8EncodePair]
    simp only [List.length_append, List.length_cons, hp]
    omega
  | case5 c1 c2 rest h1 h2 ih =>
    unfold utf8Encode
    rw [if_neg h1, if_pos h2]
    have hr : replacementBytes.length = 3 := rfl
    simp only [List.length_append, List.length_cons, hr] at ih ⊢
    omega
  | case6 c1 c2 rest h1 h2 ih =>
    unfold utf8Encode
    rw [if_neg h1, if_neg h2]
    have := utf8EncodeChar_length_pos c1
    simp only [List.length_append, List.length_cons] at ih ⊢
    omega

theorem resolveOpt_some_of_ne_undef (v : JSValue) (d : JSValue)
    (h : v ≠ JSValue.undef) : resolveOpt (some v) d = v := by
  cases v with
  | undef => exact absurd rfl h
  | str s => rfl
  | int n => rfl
  | nonIntNum => rfl
  | other => rfl

theorem failsPositiveIntegerCheck_int_false (n : Int) (h : 1 ≤ n) :
    failsPositiveIntegerCheck (JSValue.int n) = false := by
  simp only [failsPositiveIntegerCheck, decide_eq_false_iff_not]
  omega

/-- Shared helper: when the resolved rounds, output length and salt pass
all checks, the wrapper returns the primitive's output on the encoded
password and salt, with the allocated zero buffer and lengths passed
through exactly as the source does. -/
theorem encryptPasswordWith_ok_eq
    (kdf : List Nat → Nat → List Nat → Nat → List Nat → Nat → Nat →
      List Nat)
    (p : List Nat) (opts : Options) (env : Option (List Nat))
    (n L : Int) (s : List Nat)
    (hr : resolveOpt opts.numberOfRounds (JSValue.int 1) = JSValue.int n)
    (hn : 1 ≤ n)
    (hL : resolveOpt opts.outputLength (JSValue.int 32) = JSValue.int L)
    (hL1 : 1 ≤ L)
    (hs : resolveOpt opts.salt (envSaltValue env) = JSValue.str s)
    (hslen : minSaltLengh ≤ s.length) :
    encryptPasswordWith kdf (JSValue.str p) opts env =
      Except.ok (kdf (utf8Encode p) (utf8Encode p).length (utf8Encode s)
        (utf8Encode s).length (List.replicate L.toNat 0) L.toNat
        n.toNat) := by
  have h1 := failsPositiveIntegerCheck_int_false n hn
  have h2 := failsPositiveIntegerCheck_int_false L hL1
  have h3 : ¬ s.length < minSaltLengh := by omega
  simp only [encryptPasswordWith, hr, hL, hs, h1, h2, Bool.false_eq_true,
    if_false, if_neg h3, jsToNat]

theorem roundsMessage_ne_outputLengthMessage :
    roundsMessage ≠ outputLengthMessage := by
  decide

theorem roundsMessage_ne_saltTypeMessage :
    roundsMessage ≠ saltTypeMessage := by
  decide

theorem roundsMessage_ne_saltLengthMessage :
    roundsMessage ≠ saltLengthMessage := by
  decide

/-- Shared helper: with a string password, the wrapper reports the
invalid-rounds error exactly when the resolved `numberOfRounds` fails the
positive-integer check, whatever the derivation primitive is. -/
theorem encryptPasswordWith_error_rounds_iff
    (kdf : List Nat → Nat → List Nat → Nat → List Nat → Nat → Nat →
      List Nat)
    (p : List Nat) (opts : Options) (env : Option (List Nat)) :
    encryptPasswordWith kdf (JSValue.str p) opts env
        = Except.error roundsMessage ↔
      failsPositiveIntegerCheck
        (resolveOpt opts.numberOfRounds (JSValue.int 1)) = true := by
  simp only [encryptPasswordWith]
  constructor
  · intro h
    by_contra hc
    rw [Bool.not_eq_true] at hc
    rw [hc] at h
    simp only [Bool.false_eq_true, if_false] at h
    split at h
    · exact roundsMessage_ne_outputLengthMessage (Except.error.inj h).symm
    · split at h
      · split at h
        · exact roundsMessage_ne_saltLengthMessage (Except.error.inj h).symm
        · exact Except.noConfusion h
      · exact roundsMessage_ne_saltTypeMessage (Except.error.inj h).symm
  · intro h
    rw [h]
    simp

/-- C1: for every valid call (string password, integer numberOfRounds ≥ 1,
integer outputLength ≥ 1 — defaults 1 and 32 included via the resolution
hypotheses — and a string salt of sufficient length), `encryptPassword`
returns a fully populated buffer of exactly `outputLength` bytes; no
partial or truncated result. -/
theorem C1_length_exactness (p : List Nat) (opts : Options)
    (env : Option (List Nat)) (n L : Int) (s : List Nat)
    (hr : resolveOpt opts.numberOfRounds (JSValue.int 1) = JSValue.int n)
    (hn : 1 ≤ n)
    (hL : resolveOpt opts.outputLength (JSValue.int 32) = JSValue.int L)
    (hL1 : 1 ≤ L)
    (hs : resolveOpt opts.salt (envSaltValue env) = JSValue.str s)
    (hslen : minSaltLengh ≤ s.length) :
    ∃ buf, encryptPassword (JSValue.str p) opts env = Except.ok buf ∧
      buf.length = L.toNat := by
  refine ⟨_, encryptPasswordWith_ok_eq pbkdf p opts env n L s hr hn hL hL1
    hs hslen, ?_⟩
  exact pbkdf_length _ _ _ _ _ _ _

theorem C1_length_exactness_witness :
    ∃ buf, encryptPassword (JSValue.str okPassword)
        (Options.mk none none (some (JSValue.str okSalt))) none
      = Except.ok buf ∧ buf.length = (32 : Int).toNat :=
  C1_length_exactness okPassword
    (Options.mk none none (some (JSValue.str okSalt))) none 1 32 okSalt
    rfl (by decide) rfl (by decide) rfl (by decide)

/-- C2: `encryptPassword` is deterministic and its result depends on
nothing but the password and the resolved salt, round count and output
length: any two calls for which those four agree — in particular two
calls with identical inputs — yield byte-identical results. -/
theorem C2_determinism (p : JSValue) (o1 o2 : Options)
    (e1 e2 : Option (List Nat))
    (hr : resolveOpt o1.numberOfRounds (JSValue.int 1)
        = resolveOpt o2.numberOfRounds (JSValue.int 1))
    (hL : resolveOpt o1.outputLength (JSValue.int 32)
        = resolveOpt o2.outputLength (JSValue.int 32))
    (hs : resolveOpt o1.salt (envSaltValue e1)
        = resolveOpt o2.salt (envSaltValue e2)) :
    encryptPassword p o1 e1 = encryptPassword p o2 e2 := by
  simp only [encryptPassword, encryptPasswordWith, hr, hL, hs]

theorem C2_determinism_witness :
    encryptPassword (JSValue.str okPassword)
        (Options.mk (some (JSValue.int 1)) (some (JSValue.int 32))
          (some (JSValue.str okSalt))) none
      = encryptPassword (JSValue.str okPassword)
        (Options.mk none none none) (some okSalt) :=
  C2_determinism (JSValue.str okPassword)
    (Options.mk (some (JSValue.int 1)) (some (JSValue.int 32))
      (some (JSValue.str okSalt)))
    (Options.mk none none none) none (some okSalt) rfl rfl rfl

/-- C3 (counterexample): a salt of four é characters has byte length
exactly 8, yet the call is rejected as an invalid salt, because the code
checks `salt.length` — UTF-16 code units — not bytes. -/
theorem C3_salt_floor_counterexample :
    (utf8Encode wideSalt).length = 8 ∧
      encryptPassword (JSValue.str okPassword)
        (Options.mk (some (JSValue.int 1)) (some (JSValue.int 32))
          (some (JSValue.str wideSalt))) none
        = Except.error saltLengthMessage :=
  ⟨rfl, rfl⟩

/-- C3 (amended): the salt floor is measured in UTF-16 code units
(JavaScript `salt.length`), not bytes.  With the other inputs valid:
every explicit salt with fewer than 8 code units raises the invalid-salt
error — in particular every salt of byte length below 8, since the byte
length is at least the code-unit length — and every salt with at least 8
code units succeeds; byte length exactly 8 is not sufficient. -/
theorem C3_salt_floor (p s : List Nat) (n L : Int) (hn : 1 ≤ n)
    (hL1 : 1 ≤ L) :
    (s.length < minSaltLengh →
      encryptPassword (JSValue.str p)
        (Options.mk (some (JSValue.int n)) (some (JSValue.int L))
          (some (JSValue.str s))) none = Except.error saltLengthMessage) ∧
    ((utf8Encode s).length < minSaltLengh →
      encryptPassword (JSValue.str p)
        (Options.mk (some (JSValue.int n)) (some (JSValue.int L))
          (some (JSValue.str s))) none = Except.error saltLengthMessage) ∧
    (minSaltLengh ≤ s.length →
      ∃ buf, encryptPassword (JSValue.str p)
        (Options.mk (some (JSValue.int n)) (some (JSValue.int L))
          (some (JSValue.str s))) none = Except.ok buf) := by
  have h1 := failsPositiveIntegerCheck_int_false n hn
  have h2 := failsPositiveIntegerCheck_int_false L hL1
  have herr : s.length < minSaltLengh →
      encryptPassword (JSValue.str p)
        (Options.mk (some (JSValue.int n)) (some (JSValue.int L))
          (some (JSValue.str s))) none
        = Except.error saltLengthMessage := by
    intro hs
    simp only [encryptPassword, encryptPasswordWith, resolveOpt, h1, h2,
      Bool.false_eq_true, if_false, if_pos hs]
  refine ⟨herr, ?_, ?_⟩
  · intro hb
    have := utf8Encode_length_ge s
    exact herr (by omega)
  · intro hs
    exact ⟨_, encryptPasswordWith_ok_eq pbkdf p
      (Options.mk (some (JSValue.int n)) (some (JSValue.int L))
        (some (JSValue.str s))) none n L s rfl hn rfl hL1 rfl hs⟩

theorem C3_salt_floor_witness :
    ∃ buf, encryptPassword (JSValue.str okPassword)
        (Options.mk (some (JSValue.int 1)) (some (JSValue.int 32))
          (some (JSValue.str okSalt))) none = Except.ok buf :=
  (C3_salt_floor okPassword okSalt 1 32 (by decide) (by decide)).2.2
    (by decide)

/-- C4: the invalid-input matrix — rounds 0 raises the invalid-rounds
error, output length 0 the invalid-output-length error, the 5-byte salt
"short" the invalid-salt error, and a numeric password the
invalid-password error — and each such error is produced identically for
every derivation primitive, so validation fails before any cryptographic
work begins. -/
theorem C4_invalid_input_matrix :
    (∀ kdf, encryptPasswordWith kdf (JSValue.str okPassword)
        (Options.mk (some (JSValue.int 0)) (some (JSValue.int 32))
          (some (JSValue.str okSalt))) none
        = Except.error roundsMessage) ∧
    (∀ kdf, encryptPasswordWith kdf (JSValue.str okPassword)
        (Options.mk (some (JSValue.int 1)) (some (JSValue.int 0))
          (some (JSValue.str okSalt))) none
        = Except.error outputLengthMessage) ∧
    (∀ kdf, encryptPasswordWith kdf (JSValue.str okPassword)
        (Options.mk (some (JSValue.int 1)) (some (JSValue.int 32))
          (some (JSValue.str shortSalt))) none
        = Except.error saltLengthMessage) ∧
    (∀ kdf, encryptPasswordWith kdf (JSValue.int 5)
        (Options.mk (some (JSValue.int 1)) (some (JSValue.int 32))
          (some (JSValue.str okSalt))) none
        = Except.error passwordMessage) :=
  ⟨fun _ => rfl, fun _ => rfl, fun _ => rfl, fun _ => rfl⟩

/-- C5: salt resolution order — an explicitly supplied salt makes the
result independent of the SALT environment variable; a missing salt
option is substituted by the environment variable's value; and when
neither an explicit salt nor an environment default is present (the
other validations passing), the call fails with the invalid-salt error
instead of proceeding. -/
theorem C5_salt_resolution :
    (∀ p r L s e1 e2,
      encryptPassword p (Options.mk r L (some (JSValue.str s))) e1
        = encryptPassword p (Options.mk r L (some (JSValue.str s))) e2) ∧
    (∀ p r L s e,
      encryptPassword p (Options.mk r L none) (some s)
        = encryptPassword p (Options.mk r L (some (JSValue.str s))) e) ∧
    (∀ p r L,
      failsPositiveIntegerCheck (resolveOpt r (JSValue.int 1)) = false →
      failsPositiveIntegerCheck (resolveOpt L (JSValue.int 32)) = false →
      encryptPassword (JSValue.str p) (Options.mk r L none) none
        = Except.error saltTypeMessage) := by
  refine ⟨?_, ?_, ?_⟩
  · intro p r L s e1 e2
    simp only [encryptPassword, encryptPasswordWith, resolveOpt]
  · intro p r L s e
    simp only [encryptPassword, encryptPasswordWith, resolveOpt,
      envSaltValue]
  · intro p r L h1 h2
    simp only [encryptPassword, encryptPasswordWith, h1, h2,
      Bool.false_eq_true, if_false]
    rfl

theorem C5_salt_resolution_witness :
    encryptPassword (JSValue.str okPassword) (Options.mk none none none)
      none = Except.error saltTypeMessage :=
  C5_salt_resolution.2.2 okPassword none none rfl rfl

/-- C6 (counterexample): a call whose rounds option is missing does not
raise the invalid-rounds error — it succeeds, because the destructuring
default substitutes 1. -/
theorem C6_rounds_counterexample :
    ∃ buf, encryptPassword (JSValue.str okPassword)
        (Options.mk none (some (JSValue.int 32))
          (some (JSValue.str okSalt))) none = Except.ok buf :=
  ⟨_, rfl⟩

/-- C6 (amended): with a string password, `encryptPassword` raises the
invalid-rounds error exactly when the rounds option, after the
destructuring default (missing or undefined becomes 1), is not an
integral number at least 1; in particular a missing rounds option never
raises it. -/
theorem C6_rounds_validation (p : List Nat) (opts : Options)
    (env : Option (List Nat)) :
    encryptPassword (JSValue.str p) opts env = Except.error roundsMessage
      ↔ failsPositiveIntegerCheck
          (resolveOpt opts.numberOfRounds (JSValue.int 1)) = true :=
  encryptPasswordWith_error_rounds_iff pbkdf p opts env

/-- C7: module-load validation of the SALT environment variable — an
absent variable is accepted; a present non-string or a present string
failing the per-call length floor makes startup throw; and the startup
rule on strings is exactly the per-call rule (`length < minSaltLengh`),
so in particular any SALT of byte length below 8 makes startup throw. -/
theorem C7_startup_validation :
    (validateSaltVariable JSValue.undef = Except.ok ()) ∧
    (∀ v, v ≠ JSValue.undef → v.isString = false →
      validateSaltVariable v = Except.error saltVariableMessage) ∧
    (∀ s, validateSaltVariable (JSValue.str s)
        = Except.error saltVariableMessage ↔ s.length < minSaltLengh) ∧
    (∀ s, (utf8Encode s).length < minSaltLengh →
      validateSaltVariable (JSValue.str s)
        = Except.error saltVariableMessage) := by
  refine ⟨rfl, ?_, ?_, ?_⟩
  · intro v hv hs
    cases v with
    | undef => exact absurd rfl hv
    | str s => simp [JSValue.isString] at hs
    | int n => rfl
    | nonIntNum => rfl
    | other => rfl
  · intro s
    have hne : JSValue.str s ≠ JSValue.undef := by simp
    constructor
    · intro h
      by_contra hc
      have hok : validateSaltVariable (JSValue.str s) = Except.ok () := by
        unfold validateSaltVariable
        rw [if_neg hne]
        exact if_neg hc
      rw [hok] at h
      exact Except.noConfusion h
    · intro h
      unfold validateSaltVariable
      rw [if_neg hne]
      exact if_pos h
  · intro s hb
    have := utf8Encode_length_ge s
    have hs : s.length < minSaltLengh := by omega
    have hne : JSValue.str s ≠ JSValue.undef := by simp
    unfold validateSaltVariable
    rw [if_neg hne]
    exact if_pos hs

theorem C7_startup_validation_witness :
    validateSaltVariable (JSValue.str shortSalt)
      = Except.error saltVariableMessage :=
  (C7_startup_validation.2.2.1 shortSalt).mpr (by decide)

/-- C8: the default salt is re-read from the SALT environment variable
at each call — a call without an explicit salt behaves exactly like a
call whose salt option is the value env.SALT holds at that moment (for
any environment on the explicit side), and concretely the same defaulted
call succeeds under one environment value and fails under another, so
mutating env.SALT between calls changes subsequent defaulted calls. -/
theorem C8_env_read_per_call :
    (∀ p r L s e2,
      encryptPassword p (Options.mk r L none) (some s)
        = encryptPassword p (Options.mk r L (some (JSValue.str s))) e2) ∧
    (∀ p r L,
      encryptPassword p (Options.mk r L none) none
        = encryptPassword p (Options.mk r L (some JSValue.undef)) none) ∧
    (∃ buf, encryptPassword (JSValue.str okPassword)
        (Options.mk none none none) (some okSalt) = Except.ok buf) ∧
    (encryptPassword (JSValue.str okPassword) (Options.mk none none none)
        none = Except.error saltTypeMessage) := by
  refine ⟨?_, ?_, ⟨_, rfl⟩, rfl⟩
  · intro p r L s e2
    simp only [encryptPassword, encryptPasswordWith, resolveOpt,
      envSaltValue]
  · intro p r L
    rfl

/-- C9: the empty-string password is accepted — with a valid salt, valid
rounds and valid output length (defaults included), the call on the empty
password raises no error and returns a buffer of exactly the requested
number of bytes. -/
theorem C9_empty_password (opts : Options) (env : Option (List Nat))
    (n L : Int) (s : List Nat)
    (hr : resolveOpt opts.numberOfRounds (JSValue.int 1) = JSValue.int n)
    (hn : 1 ≤ n)
    (hL : resolveOpt opts.outputLength (JSValue.int 32) = JSValue.int L)
    (hL1 : 1 ≤ L)
    (hs : resolveOpt opts.salt (envSaltValue env) = JSValue.str s)
    (hslen : minSaltLengh ≤ s.length) :
    ∃ buf, encryptPassword (JSValue.str []) opts env = Except.ok buf ∧
      buf.length = L.toNat := by
  refine ⟨_, encryptPasswordWith_ok_eq pbkdf [] opts env n L s hr hn hL
    hL1 hs hslen, ?_⟩
  exact pbkdf_length _ _ _ _ _ _ _

theorem C9_empty_password_witness :
    ∃ buf, encryptPassword (JSValue.str [])
        (Options.mk none none (some (JSValue.str okSalt))) none
      = Except.ok buf ∧ buf.length = (32 : Int).toNat :=
  C9_empty_password (Options.mk none none (some (JSValue.str okSalt)))
    none 1 32 okSalt rfl (by decide) rfl (by decide) rfl (by decide)

/-- C10: passing the salt option explicitly set to undefined behaves
identically to omitting it entirely — the destructuring default
substitutes env.SALT in both cases, and only the substituted value is
validated. -/
theorem C10_undefined_salt (p : JSValue) (r L : Option JSValue)
    (env : Option (List Nat)) :
    encryptPassword p (Options.mk r L (some JSValue.undef)) env
      = encryptPassword p (Options.mk r L none) env :=
  rfl
